import Mathlib

/-!
Shallow embedding of the `login` handler
(`packages/shopify-app-remix/src/auth/login/login.ts`) and the
`registerWebhooks` handler (`registerWebhooksFactory`) of the
shopify-app-js repository, with theorems checking the natural-language
specification against this embedding.

Conventions of the embedding:
* JavaScript strings are Lean `String`s; `null` becomes `Option`.
* `FormData` and `URLSearchParams` are association lists; `get` returns
  the first value for a key, or `none`.
* JavaScript truthiness on `string | null` (`!shop`) is `jsTruthy`:
  `null` and the empty string are falsy, all other strings truthy.
* The handlers are effectful only through the injected `logger` and the
  injected API client; logging is made explicit as a list of `LogEntry`
  values in the result, and the webhook registration call is made
  explicit as a call trace (the list of sessions it was invoked on).
* `login` can either return a value or throw a redirect `Response`;
  its outcome is the sum type `LoginOutcome`.
-/

namespace ShopifyAppJs

/-- Log severity levels used by the handlers (`logger.debug`,
`logger.info`, `logger.error`). -/
inductive LogLevel where
  | debug
  | info
  | error
  deriving Repr, DecidableEq

/-- One emitted log line: level, message, and the string context the
handler attached (the shop value, or a serialized payload). -/
structure LogEntry where
  level : LogLevel
  message : String
  context : String
  deriving Repr, DecidableEq

/-- Modelled from the spec: the login error enum
`MissingShop | InvalidProtocol | InvalidShop` (declared in the package's
`types.ts`, which only `login.ts` uses here). -/
inductive LoginErrorType where
  | MissingShop
  | InvalidProtocol
  | InvalidShop
  deriving Repr, DecidableEq

/-- The typed error value `login` returns: an object `{shop: <error type>}`. -/
structure LoginError where
  shop : LoginErrorType
  deriving Repr, DecidableEq

/-- A response thrown by the handler; `redirect` produces status 302 with
a `Location` header. -/
structure Response where
  status : Nat
  location : String
  deriving Repr, DecidableEq

/-- `redirect` from `@remix-run/server-runtime`: a 302 response to `url`. -/
def redirect (url : String) : Response :=
  { status := 302, location := url }

/-- How `login` finished: it either returned a `LoginError` value
normally, or threw a redirect `Response`. -/
inductive LoginOutcome where
  | returned (err : LoginError)
  | threw (response : Response)
  deriving Repr, DecidableEq

/-- The full observable behaviour of one `login` run: the outcome plus
everything the injected logger was asked to record. -/
structure LoginResult where
  outcome : LoginOutcome
  logs : List LogEntry
  deriving Repr, DecidableEq

/-- An association list standing for `FormData` / `URLSearchParams`. -/
abbrev Params := List (String × String)

/-- `get(key)` on `FormData` / `URLSearchParams`: first value for the
key, or `null`. -/
def paramsGet (params : Params) (key : String) : Option String :=
  (params.find? (fun p => p.1 == key)).map (fun p => p.2)

/-- The parsed request URL (`new URL(request.url)`): its search
parameters and the remaining components (origin and pathname), which the
handler never reads. -/
structure URLData where
  base : String
  searchParams : Params
  deriving Repr, DecidableEq

/-- An incoming request: its URL, its form data, and its other data
(headers etc.), which the login handler never reads. -/
structure Request where
  url : URLData
  formData : Params
  headers : Params
  deriving Repr, DecidableEq

/-- JavaScript truthiness of a `string | null` value: `null` and `''`
are falsy. -/
def jsTruthy : Option String → Bool
  | none => false
  | some s => !(s == "")

/-- The configured auth sub-object of the app config; `login` reads
`config.auth.path`. -/
structure AuthConfig where
  path : String
  deriving Repr, DecidableEq

/-- The app config injected into the factory; only `auth.path` is read
by `login`. -/
structure AppConfig where
  auth : AuthConfig
  deriving Repr, DecidableEq

/-- A webhook registration session (owned by the API client library);
the handlers read its `shop`. -/
structure Session where
  id : String
  shop : String
  deriving Repr, DecidableEq

/-- One per-topic registration result from the API client:
`{success, operation, result}` with `result` kept as its
`JSON.stringify` serialization. -/
structure TopicResult where
  success : Bool
  operation : String
  result : String
  deriving Repr, DecidableEq

/-- The API client's webhook registration response: for each topic, the
list of per-registration results. -/
abbrev RegisterResponse := List (String × List TopicResult)

/-- `api.utils` of the injected API client: `sanitizeShop` returns the
sanitized shop domain or `null`. -/
structure ApiUtils where
  sanitizeShop : String → Option String

/-- `api.webhooks` of the injected API client. -/
structure ApiWebhooks where
  register : Session → RegisterResponse

/-- The injected API client, restricted to the members these handlers
use. -/
structure ApiClient where
  utils : ApiUtils
  webhooks : ApiWebhooks

/-- `String.prototype.startsWith(pre)` of JavaScript, expressed on the
character sequence so that concrete instances evaluate. -/
def jsStartsWith (s pre : String) : Bool :=
  pre.data.isPrefixOf s.data

/-- Whether the string contains the character `c`
(JavaScript `indexOf(c) !== -1`), expressed on the character
sequence so that concrete instances evaluate. -/
def jsIncludesChar (s : String) (c : Char) : Bool :=
  s.data.contains c

/-- The shop-selection step of `login`:
`formData.get('shop') ? formData.get('shop') : url.searchParams.get('shop')`.
A truthy (present, non-empty) form value wins; otherwise the query
string value is used. -/
def extractShop (request : Request) : Option String :=
  if jsTruthy (paramsGet request.formData "shop") then
    paramsGet request.formData "shop"
  else
    paramsGet request.url.searchParams "shop"

/-- The normalization step of `login`: the conditional
`shop?.indexOf('.') === -1` selecting between the template literal
appending `.myshopify.com` and the shop unchanged — append exactly when
the shop contains no `'.'`. -/
def shopWithDot (shop : String) : String :=
  if jsIncludesChar shop '.' then shop else shop ++ ".myshopify.com"

/-- The tail of `login` from the `sanitizeShop` call on: `InvalidShop`
when the sanitized value is falsy, otherwise throw a redirect to
`config.auth.path` with the sanitized shop as the `shop` query
parameter. -/
def afterSanitize (config : AppConfig) (shopForLog : String)
    (sanitizedShop : Option String) : LoginResult :=
  if !(jsTruthy sanitizedShop) then
    { outcome := .returned { shop := .InvalidShop },
      logs := [{ level := .debug, message := "Invalid shop parameter",
                 context := shopForLog }] }
  else
    let sanitized := sanitizedShop.getD ""
    let redirectUrl := config.auth.path ++ "?shop=" ++ sanitized
    { outcome := .threw (redirect redirectUrl),
      logs := [{ level := .info,
                 message := "Redirecting login request to " ++ redirectUrl,
                 context := sanitized }] }

/-- The body of `login` once the shop parameter has been selected:
the `!shop` guard, the `startsWith('http')` guard, normalization, and
`afterSanitize`. -/
def loginWithShop (api : ApiClient) (config : AppConfig)
    (shop : Option String) : LoginResult :=
  if !(jsTruthy shop) then
    { outcome := .returned { shop := .MissingShop },
      logs := [{ level := .debug, message := "Missing shop parameter",
                 context := shop.getD "" }] }
  else
    let s := shop.getD ""
    if jsStartsWith s "http" then
      { outcome := .returned { shop := .InvalidProtocol },
        logs := [{ level := .debug,
                   message := "Shop parameter contained protocol",
                   context := s }] }
    else
      let withDot := shopWithDot s
      afterSanitize config withDot (api.utils.sanitizeShop withDot)

/-- The `login` handler produced by `loginFactory({api, config, logger})`:
the factory's captured parameters are the leading arguments. -/
def login (api : ApiClient) (config : AppConfig) (request : Request) :
    LoginResult :=
  loginWithShop api config (extractShop request)

/-- The observable behaviour of one `registerWebhooks` run: the value it
returns, the log lines it emitted, and the trace of sessions
`api.webhooks.register` was invoked on (one entry per invocation). -/
structure RegisterOutcome where
  response : RegisterResponse
  logs : List LogEntry
  calls : List Session

/-- The per-topic log lines of `registerWebhooks`: `debug` for each
successful result, `error` for each failed one. -/
def webhookLogs (shop : String) (response : RegisterResponse) :
    List LogEntry :=
  response.flatMap (fun tr =>
    tr.2.map (fun r =>
      if r.success then
        { level := .debug, message := "Registered webhook",
          context := tr.1 ++ " " ++ shop ++ " " ++ r.operation }
      else
        { level := .error, message := "Failed to register webhook",
          context := tr.1 ++ " " ++ shop ++ " " ++ r.result }))

/-- The `registerWebhooks` handler produced by
`registerWebhooksFactory({api, logger})`: one call to
`api.webhooks.register({session})` (recorded in `calls`), per-topic
logging of the response, and the response returned unchanged. -/
def registerWebhooks (api : ApiClient) (session : Session) :
    RegisterOutcome :=
  let response := api.webhooks.register session
  { response := response,
    logs := webhookLogs session.shop response,
    calls := [session] }

/-! ### Spec-side predicates (from the specification's wording, for
comparison with the embedded code) -/

/-- The characters strictly before the first occurrence of `://`, when
the string has one. -/
def schemeSplit : List Char → Option (List Char)
  | [] => none
  | c :: rest =>
    if [':', '/', '/'].isPrefixOf (c :: rest) then some []
    else (schemeSplit rest).map (fun pre => c :: pre)

/-- Spec wording for C2, "includes a URL scheme": the string contains a
`://` separator preceded by a nonempty alphabetic scheme name. -/
def includesUrlScheme (s : String) : Bool :=
  match schemeSplit s.data with
  | some pre => !pre.isEmpty && pre.all Char.isAlpha
  | none => false

/-- Spec wording for C3, "carries a shop value": the form data or the
query string has an entry for the key `shop`, of any value. -/
def carriesShopValue (request : Request) : Bool :=
  (paramsGet request.formData "shop").isSome ||
  (paramsGet request.url.searchParams "shop").isSome

/-- Either the form data or the query string carries a *non-empty* shop
value (the values JavaScript truthiness lets through). -/
def hasNonEmptyShop (request : Request) : Bool :=
  jsTruthy (paramsGet request.formData "shop") ||
  jsTruthy (paramsGet request.url.searchParams "shop")

/-! ### Concrete fixtures for witnesses and counterexamples -/

/-- A concrete app config with auth path `/auth/login` (the package's
default). -/
def testConfig : AppConfig := { auth := { path := "/auth/login" } }

/-- An API client whose sanitizer accepts every shop unchanged. -/
def acceptApi : ApiClient :=
  { utils := { sanitizeShop := fun s => some s },
    webhooks := { register := fun _ => [] } }

/-- An API client whose sanitizer rejects every shop. -/
def noneApi : ApiClient :=
  { utils := { sanitizeShop := fun _ => none },
    webhooks := { register := fun _ => [] } }

/-- A request with no `shop` parameter anywhere. -/
def emptyRequest : Request :=
  { url := { base := "https://app.example.com/auth/login", searchParams := [] },
    formData := [], headers := [] }

/-- A request whose query string carries the bare shop `demoshop`. -/
def bareShopRequest : Request :=
  { url := { base := "https://app.example.com/auth/login",
             searchParams := [("shop", "demoshop")] },
    formData := [], headers := [] }

/-- A request whose query string carries a `https://` shop URL. -/
def httpsShopRequest : Request :=
  { url := { base := "https://app.example.com/auth/login",
             searchParams := [("shop", "https://demo.myshopify.com")] },
    formData := [], headers := [] }

/-- A request whose query string carries a shop with a `ftp://` scheme. -/
def ftpShopRequest : Request :=
  { url := { base := "https://app.example.com/auth/login",
             searchParams := [("shop", "ftp://demo.myshopify.com")] },
    formData := [], headers := [] }

/-- A request whose query string carries `shop` with the empty string as
its value. -/
def emptyShopValueRequest : Request :=
  { url := { base := "https://app.example.com/auth/login",
             searchParams := [("shop", "")] },
    formData := [], headers := [] }

/-- A request whose form data carries `shop` with the empty string while
the query string carries `queryshop`. -/
def formEmptyRequest : Request :=
  { url := { base := "https://app.example.com/auth/login",
             searchParams := [("shop", "queryshop")] },
    formData := [("shop", "")], headers := [] }

/-- A request whose form data carries `formshop` while the query string
carries `queryshop`. -/
def formFullRequest : Request :=
  { url := { base := "https://app.example.com/auth/login",
             searchParams := [("shop", "queryshop")] },
    formData := [("shop", "formshop")], headers := [] }

/-- Two requests identical in URL and form data, differing only in
headers. -/
def headersRequestA : Request :=
  { url := { base := "https://app.example.com/auth/login",
             searchParams := [("shop", "demoshop")] },
    formData := [("shop", "formshop")],
    headers := [("x-request-id", "a")] }

/-- See `headersRequestA`: same URL and form data, different headers. -/
def headersRequestB : Request :=
  { url := { base := "https://app.example.com/auth/login",
             searchParams := [("shop", "demoshop")] },
    formData := [("shop", "formshop")], headers := [] }

/-- A request whose query string carries the shop `httpshop`: it starts
with `http` but includes no URL scheme. -/
def httpshopRequest : Request :=
  { url := { base := "https://app.example.com/auth/login",
             searchParams := [("shop", "httpshop")] },
    formData := [], headers := [] }

/-- A request whose query string carries the shop `http bad`: it starts
with `http` but includes no URL scheme, and no sanitizer accepts it. -/
def httpBadRequest : Request :=
  { url := { base := "https://app.example.com/auth/login",
             searchParams := [("shop", "http bad")] },
    formData := [], headers := [] }

/-- A concrete webhook session. -/
def sessionA : Session :=
  { id := "offline_demoshop", shop := "demoshop.myshopify.com" }

/-- A failed per-topic registration result. -/
def failResultA : TopicResult :=
  { success := false, operation := "create", result := "serialized-error" }

/-- An API client whose webhook registration reports one failing topic. -/
def failApi : ApiClient :=
  { utils := { sanitizeShop := fun s => some s },
    webhooks := { register := fun _ => [("PRODUCTS_UPDATE", [failResultA])] } }

/-! ### Theorems -/

/-- C1: for every request on which shop-parameter validation fails —
the selected shop is falsy (missing or empty), it starts a URL scheme
(the `startsWith('http')` guard), or sanitization rejects it — `login`
returns a typed `LoginError` value and throws nothing. -/
theorem login_validation_failure_returns_error
    (api : ApiClient) (config : AppConfig) (request : Request)
    (h : jsTruthy (extractShop request) = false ∨
      jsStartsWith ((extractShop request).getD "") "http" = true ∨
      jsTruthy (api.utils.sanitizeShop
        (shopWithDot ((extractShop request).getD ""))) = false) :
    (∃ e, (login api config request).outcome = LoginOutcome.returned e) ∧
    ∀ r, (login api config request).outcome ≠ LoginOutcome.threw r := by
  unfold login loginWithShop afterSanitize
  cases hb : jsTruthy (extractShop request) with
  | false => simp [hb]
  | true =>
    cases hh : jsStartsWith ((extractShop request).getD "") "http" with
    | true => simp [hb, hh]
    | false =>
      cases hsan : jsTruthy (api.utils.sanitizeShop
          (shopWithDot ((extractShop request).getD ""))) with
      | false => simp [hb, hh, hsan]
      | true => simp [hb, hh, hsan] at h

/-- Witness for C1: on a request with no shop parameter, `login` returns
an error and throws nothing. -/
theorem login_validation_failure_returns_error_witness :
    (∃ e, (login acceptApi testConfig emptyRequest).outcome =
      LoginOutcome.returned e) ∧
    ∀ r, (login acceptApi testConfig emptyRequest).outcome ≠
      LoginOutcome.threw r :=
  login_validation_failure_returns_error acceptApi testConfig emptyRequest
    (Or.inl rfl)

/-- C2, counterexample: the shop `ftp://demo.myshopify.com` includes a
URL scheme, yet `login` returns `InvalidShop` — not `InvalidProtocol` —
because the guard only checks `startsWith('http')`. -/
theorem login_scheme_counterexample :
    includesUrlScheme "ftp://demo.myshopify.com" = true ∧
    (login noneApi testConfig ftpShopRequest).outcome =
      LoginOutcome.returned { shop := LoginErrorType.InvalidShop } ∧
    (login noneApi testConfig ftpShopRequest).outcome ≠
      LoginOutcome.returned { shop := LoginErrorType.InvalidProtocol } := by
  refine ⟨by decide, rfl, by decide⟩

/-- C2 as amended: for every request whose selected shop parameter is
present, non-empty and starts with the string `http` (which covers every
`http://` and `https://` URL), `login` returns the `InvalidProtocol`
error. -/
theorem login_http_shop_invalid_protocol
    (api : ApiClient) (config : AppConfig) (request : Request) (s : String)
    (hs : extractShop request = some s) (hne : s ≠ "")
    (hh : jsStartsWith s "http" = true) :
    (login api config request).outcome =
      LoginOutcome.returned { shop := LoginErrorType.InvalidProtocol } := by
  unfold login loginWithShop
  simp [hs, hh, jsTruthy, hne]

/-- Witness for the amended C2: a `https://` shop URL in the query
string is rejected with `InvalidProtocol`. -/
theorem login_http_shop_invalid_protocol_witness :
    (login acceptApi testConfig httpsShopRequest).outcome =
      LoginOutcome.returned { shop := LoginErrorType.InvalidProtocol } :=
  login_http_shop_invalid_protocol acceptApi testConfig httpsShopRequest
    "https://demo.myshopify.com" rfl (by decide) rfl

/-- C3, counterexample: a request whose query string carries `shop` with
the empty-string value does carry a shop value, yet `login` returns
`MissingShop`, because the empty string is falsy. -/
theorem login_missing_shop_counterexample :
    carriesShopValue emptyShopValueRequest = true ∧
    (login acceptApi testConfig emptyShopValueRequest).outcome =
      LoginOutcome.returned { shop := LoginErrorType.MissingShop } := by
  refine ⟨by decide, rfl⟩

/-- C3 as amended: `login` returns `MissingShop` exactly when neither
the form data nor the query string carries a non-empty shop value; a
present but empty value counts as absent. -/
theorem login_missing_shop_iff
    (api : ApiClient) (config : AppConfig) (request : Request) :
    ((login api config request).outcome =
      LoginOutcome.returned { shop := LoginErrorType.MissingShop }) ↔
    hasNonEmptyShop request = false := by
  unfold login loginWithShop afterSanitize hasNonEmptyShop extractShop
  cases hf : jsTruthy (paramsGet request.formData "shop") with
  | true =>
    cases hh : jsStartsWith ((paramsGet request.formData "shop").getD "") "http" with
    | true => simp [hf, hh]
    | false =>
      cases hsan : jsTruthy (api.utils.sanitizeShop
          (shopWithDot ((paramsGet request.formData "shop").getD ""))) with
      | false => simp [hf, hh, hsan]
      | true => simp [hf, hh, hsan, redirect]
  | false =>
    cases hq : jsTruthy (paramsGet request.url.searchParams "shop") with
    | true =>
      cases hh : jsStartsWith ((paramsGet request.url.searchParams "shop").getD "") "http" with
      | true => simp [hf, hq, hh]
      | false =>
        cases hsan : jsTruthy (api.utils.sanitizeShop
            (shopWithDot ((paramsGet request.url.searchParams "shop").getD ""))) with
        | false => simp [hf, hq, hh, hsan]
        | true => simp [hf, hq, hh, hsan, redirect]
    | false => simp [hf, hq]

/-- C4, counterexample: the shop `httpshop` starts no URL scheme and
contains no `'.'`, so the claim says it is normalized and handed to the
sanitizer — but `login` trips the `startsWith('http')` guard and returns
`InvalidProtocol` without the sanitizer ever influencing the result
(even an accepting sanitizer yields no redirect). -/
theorem login_normalizes_counterexample :
    includesUrlScheme "httpshop" = false ∧
    jsIncludesChar "httpshop" '.' = false ∧
    (login acceptApi testConfig httpshopRequest).outcome =
      LoginOutcome.returned { shop := LoginErrorType.InvalidProtocol } ∧
    login acceptApi testConfig httpshopRequest ≠
      afterSanitize testConfig (shopWithDot "httpshop")
        (acceptApi.utils.sanitizeShop (shopWithDot "httpshop")) := by
  refine ⟨by decide, by decide, rfl, by decide⟩

/-- C4 as amended: for every present, non-empty shop parameter that does
not start with the string `http`, the whole behaviour of `login` factors
through the sanitizer applied to `shopWithDot s` — the value `login`
passes to `api.utils.sanitizeShop` — and `shopWithDot` appends
`.myshopify.com` exactly when the shop has no `'.'`, and leaves a dotted
shop unchanged. -/
theorem login_normalizes_before_sanitize
    (api : ApiClient) (config : AppConfig) (request : Request) (s : String)
    (hs : extractShop request = some s) (hne : s ≠ "")
    (hh : jsStartsWith s "http" = false) :
    login api config request =
      afterSanitize config (shopWithDot s)
        (api.utils.sanitizeShop (shopWithDot s)) ∧
    (jsIncludesChar s '.' = false → shopWithDot s = s ++ ".myshopify.com") ∧
    (jsIncludesChar s '.' = true → shopWithDot s = s) := by
  refine ⟨?_, fun hd => by simp [shopWithDot, hd], fun hd => by simp [shopWithDot, hd]⟩
  unfold login loginWithShop
  simp [hs, hh, jsTruthy, hne]

/-- Witness for C4: the bare shop `demoshop` is normalized to
`demoshop.myshopify.com` and handed to the sanitizer. -/
theorem login_normalizes_before_sanitize_witness :
    login acceptApi testConfig bareShopRequest =
      afterSanitize testConfig (shopWithDot "demoshop")
        (acceptApi.utils.sanitizeShop (shopWithDot "demoshop")) ∧
    shopWithDot "demoshop" = "demoshop" ++ ".myshopify.com" :=
  ⟨(login_normalizes_before_sanitize acceptApi testConfig bareShopRequest
      "demoshop" rfl (by decide) rfl).1,
   (login_normalizes_before_sanitize acceptApi testConfig bareShopRequest
      "demoshop" rfl (by decide) rfl).2.1 rfl⟩

/-- C5, counterexample: the shop `http bad` starts no URL scheme, and
the sanitizer (here one that rejects everything) returns no value for
it — yet `login` returns `InvalidProtocol`, not the `InvalidShop` the
claim asserts, because the `startsWith('http')` guard fires first. -/
theorem login_invalid_shop_counterexample :
    includesUrlScheme "http bad" = false ∧
    noneApi.utils.sanitizeShop (shopWithDot "http bad") = none ∧
    (login noneApi testConfig httpBadRequest).outcome =
      LoginOutcome.returned { shop := LoginErrorType.InvalidProtocol } ∧
    (login noneApi testConfig httpBadRequest).outcome ≠
      LoginOutcome.returned { shop := LoginErrorType.InvalidShop } := by
  refine ⟨by decide, rfl, rfl, by decide⟩

/-- C5 as amended: for every present, non-empty shop parameter that does
not start with the string `http`, when the sanitizer returns no value
for the normalized shop, `login` returns the `InvalidShop` error; and
every error `login` ever returns is one of `MissingShop`,
`InvalidProtocol`, `InvalidShop`. -/
theorem login_invalid_shop_error_range
    (api : ApiClient) (config : AppConfig) (request : Request) (s : String)
    (hs : extractShop request = some s) (hne : s ≠ "")
    (hh : jsStartsWith s "http" = false)
    (hsan : api.utils.sanitizeShop (shopWithDot s) = none) :
    (login api config request).outcome =
      LoginOutcome.returned { shop := LoginErrorType.InvalidShop } ∧
    ∀ (api2 : ApiClient) (config2 : AppConfig) (request2 : Request)
      (e : LoginError),
      (login api2 config2 request2).outcome = LoginOutcome.returned e →
      e.shop = LoginErrorType.MissingShop ∨
      e.shop = LoginErrorType.InvalidProtocol ∨
      e.shop = LoginErrorType.InvalidShop := by
  constructor
  · unfold login loginWithShop afterSanitize
    simp [hs, hh, jsTruthy, hne, hsan]
  · intro api2 config2 request2 e _
    cases he : e.shop <;> simp

/-- Witness for C5: a sanitizer rejecting everything makes `login`
return `InvalidShop` on the bare shop `demoshop`. -/
theorem login_invalid_shop_error_range_witness :
    (login noneApi testConfig bareShopRequest).outcome =
      LoginOutcome.returned { shop := LoginErrorType.InvalidShop } :=
  (login_invalid_shop_error_range noneApi testConfig bareShopRequest
    "demoshop" rfl (by decide) rfl rfl).1

/-- C6: when every check passes — shop present, non-empty, scheme-free,
and the sanitizer returns a truthy value `t` — `login` redirects, and the
redirect target is exactly `config.auth.path` with `t` appended as the
`shop` query parameter. -/
theorem login_success_redirect_target
    (api : ApiClient) (config : AppConfig) (request : Request)
    (s t : String)
    (hs : extractShop request = some s) (hne : s ≠ "")
    (hh : jsStartsWith s "http" = false)
    (hsan : api.utils.sanitizeShop (shopWithDot s) = some t) (htne : t ≠ "") :
    (login api config request).outcome =
      LoginOutcome.threw (redirect (config.auth.path ++ "?shop=" ++ t)) := by
  unfold login loginWithShop afterSanitize
  simp [hs, hh, jsTruthy, hne, hsan, htne]

/-- Witness for C6: the bare shop `demoshop` with an accepting sanitizer
redirects to `/auth/login?shop=demoshop.myshopify.com`. -/
theorem login_success_redirect_target_witness :
    (login acceptApi testConfig bareShopRequest).outcome =
      LoginOutcome.threw
        (redirect (testConfig.auth.path ++ "?shop=" ++
          "demoshop.myshopify.com")) :=
  login_success_redirect_target acceptApi testConfig bareShopRequest
    "demoshop" "demoshop.myshopify.com" rfl (by decide) rfl rfl (by decide)

/-- C7: `registerWebhooks` invokes `api.webhooks.register` exactly once
(call trace `[session]`), returns its response unchanged, and when a
topic result reports failure it only emits an `error` log line — the
result is still the unchanged response, with no retry and no raised
error. -/
theorem registerWebhooks_once_logs_failures
    (api : ApiClient) (session : Session) :
    (registerWebhooks api session).response =
      api.webhooks.register session ∧
    (registerWebhooks api session).calls = [session] ∧
    ∀ (topic : String) (results : List TopicResult) (r : TopicResult),
      (topic, results) ∈ api.webhooks.register session → r ∈ results →
      r.success = false →
      ({ level := LogLevel.error,
         message := "Failed to register webhook",
         context := topic ++ " " ++ session.shop ++ " " ++ r.result } :
        LogEntry) ∈ (registerWebhooks api session).logs := by
  refine ⟨rfl, rfl, ?_⟩
  intro topic results r hm hr hfail
  unfold registerWebhooks webhookLogs
  simp only [List.mem_flatMap, List.mem_map]
  exact ⟨(topic, results), hm, r, hr, by simp [hfail]⟩

/-- Witness for C7: with a client reporting one failing topic, the
response comes back unchanged, the client is called once, and the
failure shows up as an `error` log line. -/
theorem registerWebhooks_once_logs_failures_witness :
    (registerWebhooks failApi sessionA).response =
      failApi.webhooks.register sessionA ∧
    (registerWebhooks failApi sessionA).calls = [sessionA] ∧
    ({ level := LogLevel.error,
       message := "Failed to register webhook",
       context := "PRODUCTS_UPDATE" ++ " " ++ sessionA.shop ++ " " ++
         failResultA.result } : LogEntry) ∈
      (registerWebhooks failApi sessionA).logs :=
  ⟨(registerWebhooks_once_logs_failures failApi sessionA).1,
   (registerWebhooks_once_logs_failures failApi sessionA).2.1,
   (registerWebhooks_once_logs_failures failApi sessionA).2.2
     "PRODUCTS_UPDATE" [failResultA] failResultA (by simp [failApi])
     (by simp) rfl⟩

/-- C8: `login` is stateless per request — its entire observable result
(outcome and log output) is a function of the injected client, the
config, and the request's URL and form data alone; two requests agreeing
on URL and form data (headers may differ) give identical results. -/
theorem login_deterministic_url_form
    (api : ApiClient) (config : AppConfig) (r1 r2 : Request)
    (hu : r1.url = r2.url) (hf : r1.formData = r2.formData) :
    login api config r1 = login api config r2 := by
  unfold login extractShop
  rw [hu, hf]

/-- Witness for C8: two concrete requests differing only in headers get
identical outcomes and logs. -/
theorem login_deterministic_url_form_witness :
    login acceptApi testConfig headersRequestA =
      login acceptApi testConfig headersRequestB :=
  login_deterministic_url_form acceptApi testConfig headersRequestA
    headersRequestB rfl rfl

/-- C9: when every validation check passes, `login` never returns
normally — its outcome is not `returned e` for any error `e`, it is the
thrown redirect response. -/
theorem login_success_throws
    (api : ApiClient) (config : AppConfig) (request : Request)
    (s t : String) (e : LoginError)
    (hs : extractShop request = some s) (hne : s ≠ "")
    (hh : jsStartsWith s "http" = false)
    (hsan : api.utils.sanitizeShop (shopWithDot s) = some t) (htne : t ≠ "") :
    (login api config request).outcome ≠ LoginOutcome.returned e ∧
    (login api config request).outcome =
      LoginOutcome.threw (redirect (config.auth.path ++ "?shop=" ++ t)) := by
  unfold login loginWithShop afterSanitize
  simp [hs, hh, jsTruthy, hne, hsan, htne]

/-- Witness for C9: on the valid bare shop `demoshop`, `login` does not
return the `InvalidShop` value (or any value) — it throws the redirect. -/
theorem login_success_throws_witness :
    (login acceptApi testConfig bareShopRequest).outcome ≠
      LoginOutcome.returned { shop := LoginErrorType.InvalidShop } ∧
    (login acceptApi testConfig bareShopRequest).outcome =
      LoginOutcome.threw
        (redirect (testConfig.auth.path ++ "?shop=" ++
          "demoshop.myshopify.com")) :=
  login_success_throws acceptApi testConfig bareShopRequest
    "demoshop" "demoshop.myshopify.com" { shop := LoginErrorType.InvalidShop }
    rfl (by decide) rfl rfl (by decide)

/-- C10: when the form data's `shop` field holds the empty string, the
handler falls back to the query string's `shop` parameter; a non-empty
form value always takes precedence over the query string. -/
theorem login_form_shop_precedence
    (api : ApiClient) (config : AppConfig) (request : Request) (s : String)
    (hf : paramsGet request.formData "shop" = some s) :
    (s = "" →
      extractShop request = paramsGet request.url.searchParams "shop" ∧
      login api config request =
        loginWithShop api config
          (paramsGet request.url.searchParams "shop")) ∧
    (s ≠ "" →
      extractShop request = some s ∧
      login api config request = loginWithShop api config (some s)) := by
  constructor
  · intro he
    have h1 : extractShop request = paramsGet request.url.searchParams "shop" := by
      unfold extractShop
      simp [hf, he, jsTruthy]
    exact ⟨h1, by unfold login; rw [h1]⟩
  · intro hne
    have h1 : extractShop request = some s := by
      unfold extractShop
      simp [hf, jsTruthy, hne]
    exact ⟨h1, by unfold login; rw [h1]⟩

/-- Witness for C10: an empty form value falls back to `queryshop`; a
non-empty form value `formshop` wins over the query string. -/
theorem login_form_shop_precedence_witness :
    extractShop formEmptyRequest =
      paramsGet formEmptyRequest.url.searchParams "shop" ∧
    extractShop formFullRequest = some "formshop" :=
  ⟨((login_form_shop_precedence acceptApi testConfig formEmptyRequest ""
      rfl).1 rfl).1,
   ((login_form_shop_precedence acceptApi testConfig formFullRequest
      "formshop" rfl).2 (by decide)).1⟩

end ShopifyAppJs
